import Mathlib

/-!
Shallow embedding of the iGel-router web dashboard core
(src/web-dashboard/app.py, src/web-dashboard/api/routes.py,
src/web-dashboard/api/wifi.py) and proofs about the spec's claims.

External effects (subprocess execution, sqlite storage, the json library)
are modelled as explicit oracles: a handler takes the outcome of each
external interaction as an argument and returns, next to its HTTP
response, a trace of the external commands it issued, the audit rows it
inserted and the diagnostic-log lines it wrote.  Python exceptions are
modelled with `Except String`; a total Lean function models a Python
function that never lets an exception escape.
-/

/-- Model of a Python/JSON value as produced by `json.loads` and consumed
by the dashboard handlers.  JSON object keys are strings; an object is an
association list (lookup takes the first matching key). -/
inductive PyVal where
  | none
  | bool (b : Bool)
  | int (n : Int)
  | str (s : String)
  | list (xs : List PyVal)
  | dict (kvs : List (String × PyVal))

/-- Python whitespace characters stripped by `str.strip()`. -/
def isPyWhitespace (c : Char) : Bool :=
  c = ' ' || c = '\t' || c = '\n' || c = '\r' || c = '\x0b' || c = '\x0c'

/-- Model of Python `str.strip()`: remove leading and trailing whitespace. -/
def pyStrip (s : String) : String :=
  String.mk (((s.toList.dropWhile isPyWhitespace).reverse.dropWhile isPyWhitespace).reverse)

/-- The uniform result record returned by `run_command`
(app.py lines 113-142, duplicated in api/routes.py lines 16-45). -/
structure CommandResult where
  success : Bool
  stdout : String
  stderr : String
  returncode : Int
deriving Repr, DecidableEq

/-- The possible outcomes of the `subprocess.run` call inside
`run_command`: normal completion, `subprocess.TimeoutExpired`, or any
other exception (binary missing, permission denied, ...) whose string
rendering is `message`. -/
inductive RunOutcome where
  | completed (stdout stderr : String) (returncode : Int)
  | timedOut
  | launchFailure (message : String)

/-- A record of one `subprocess.run` invocation: its argument (list or a
single shell line), whether `shell=True`, the `timeout=` argument if one
was passed, and whether `check=True` was passed. -/
structure SubprocessCall where
  argv : List String
  shell : Bool
  timeout : Option Nat
  check : Bool
deriving Repr, DecidableEq

/-- Default value of the `timeout` parameter of `run_command`. -/
def RUN_COMMAND_DEFAULT_TIMEOUT : Nat := 30

/-- The `subprocess.run` invocation performed by `run_command command timeout`:
`subprocess.run(command, shell=True, capture_output=True, text=True, timeout=timeout)`. -/
def runCommandCall (command : String) (timeout : Nat) : SubprocessCall :=
  ⟨[command], true, some timeout, false⟩

/-- The exception-to-record mapping of `run_command` (app.py lines 115-142):
normal completion gives `success = (returncode == 0)` with stripped stdout
and stderr; `TimeoutExpired` and every other exception are converted to a
failure record.  Totality of this function is the model of the fact that
`run_command` never propagates an exception. -/
def runCommandResult : RunOutcome → CommandResult
  | .completed out err rc => ⟨rc == 0, pyStrip out, pyStrip err, rc⟩
  | .timedOut => ⟨false, "", "Command timed out", -1⟩
  | .launchFailure m => ⟨false, "", m, -1⟩

/-- Model of `run_command(command, timeout=30)`: the subprocess invocation
it issues and the result record it returns given the outcome of that
invocation. -/
def run_command (command : String) (timeout : Nat) (outcome : RunOutcome) :
    SubprocessCall × CommandResult :=
  (runCommandCall command timeout, runCommandResult outcome)

/-- One row of the `config_changes` audit table
(inserted by `log_action`, api/routes.py lines 47-60). -/
structure AuditEntry where
  user : String
  action : String
  details : String
  success : Bool
deriving Repr, DecidableEq

/-- Outcome of one sqlite connect/insert/commit sequence inside `log_action`:
either the row is stored, or some exception with string rendering `message`
is raised by the storage layer. -/
inductive DbOutcome where
  | ok
  | failure (message : String)
deriving Repr, DecidableEq

/-- Trace of the externally visible effects of one handler invocation:
the shell command strings passed to `run_command`, the audit rows inserted
into `config_changes`, and the lines written to the process diagnostic log
via `logger.error` / `logger.warning`. -/
structure Trace where
  cmds : List String
  audit : List AuditEntry
  diag : List String
deriving Repr, DecidableEq

def emptyTrace : Trace := ⟨[], [], []⟩

/-- Model of `log_action(user, action, details, success)`
(api/routes.py lines 47-60): on storage success it appends one audit row;
on any storage failure it appends one diagnostic line and nothing else.
Totality models that the `except` clause swallows every exception. -/
def log_action (db : DbOutcome) (user action details : String) (success : Bool)
    (t : Trace) : Trace :=
  match db with
  | .ok => { t with audit := t.audit ++ [⟨user, action, details, success⟩] }
  | .failure m => { t with diag := t.diag ++ ["Failed to log action: " ++ m] }

/-- An HTTP response: status code and the JSON body produced by `jsonify`,
as an ordered field list. -/
structure Response where
  status : Nat
  body : List (String × PyVal)

/-- Model of Python `d.get(key, default)`.  Works on dicts; on every other
value it raises `AttributeError` (no non-dict value used by the handlers
has a `get` method). -/
def pyGetD (v : PyVal) (key : String) (default : PyVal) : Except String PyVal :=
  match v with
  | .dict kvs => .ok ((List.lookup key kvs).getD default)
  | _ => .error "AttributeError: object has no attribute get"

/-- Model of Python `key in v` for a string key: key test on dicts,
membership on lists, substring test on strings, `TypeError` otherwise.
The substring test counts the parts of a split at the key. -/
def pyContains (v : PyVal) (key : String) : Except String Bool :=
  match v with
  | .dict kvs => .ok (List.lookup key kvs).isSome
  | .list xs => .ok (xs.any fun x => match x with | .str s => key == s | _ => false)
  | .str s => .ok (decide (2 ≤ (s.splitOn key).length))
  | _ => .error "TypeError: argument is not iterable"

/-- Model of Python `v[key]` for a string key: dict lookup raising
`KeyError` when absent, `TypeError` on any other value. -/
def pySubscript (v : PyVal) (key : String) : Except String PyVal :=
  match v with
  | .dict kvs =>
    match List.lookup key kvs with
    | some x => .ok x
    | Option.none => .error ("KeyError: " ++ key)
  | _ => .error "TypeError: object is not subscriptable"

/-- Model of Python `v[i]` for a natural index: list and string indexing
raise `IndexError` out of range, everything else raises `TypeError`. -/
def pyIndex (v : PyVal) (i : Nat) : Except String PyVal :=
  match v with
  | .list xs =>
    match xs[i]? with
    | some x => .ok x
    | Option.none => .error "list index out of range"
  | .str s =>
    match s.toList[i]? with
    | some c => .ok (.str (String.mk [c]))
    | Option.none => .error "string index out of range"
  | _ => .error "TypeError: object is not subscriptable"

/-- Model of Python `len(v)`: length of strings, lists and dicts,
`TypeError` otherwise. -/
def pyLen (v : PyVal) : Except String Int :=
  match v with
  | .str s => .ok s.length
  | .list xs => .ok xs.length
  | .dict kvs => .ok kvs.length
  | _ => .error "TypeError: object has no len"

/-- Model of Python truthiness, used by `if current_exit_node:` on a value
taken from decoded JSON. -/
def pyTruthy : PyVal → Bool
  | .none => false
  | .bool b => b
  | .int n => n != 0
  | .str s => !s.isEmpty
  | .list xs => !xs.isEmpty
  | .dict kvs => !kvs.isEmpty

/-- Observer for theorems: the value of a key in a dict result,
`Option.none` when the key is absent or the value is not a dict. -/
def dictLookup (v : PyVal) (k : String) : Option PyVal :=
  match v with
  | .dict kvs => List.lookup k kvs
  | _ => Option.none

/-- Digit-tail parser for the model of Python `int(str)`: consumes digits
with single underscores allowed between digits, accumulating the value. -/
def pyDigitsCore : List Char → Nat → Option Nat
  | [], acc => some acc
  | '_' :: c :: rest, acc =>
    if c.isDigit then pyDigitsCore rest (acc * 10 + (c.toNat - 48)) else Option.none
  | c :: rest, acc =>
    if c.isDigit then pyDigitsCore rest (acc * 10 + (c.toNat - 48)) else Option.none

/-- Digit-part parser for the model of Python `int(str)`: at least one
leading digit, then `pyDigitsCore`. -/
def pyDigits : List Char → Option Nat
  | [] => Option.none
  | c :: rest => if c.isDigit then pyDigitsCore rest (c.toNat - 48) else Option.none

/-- Model of Python `int(s)` on a string: strip whitespace, optional sign,
decimal digits with optional single underscores between digits;
`Option.none` models the `ValueError` raised on any other input.
(Non-ASCII decimal digits accepted by CPython are not modelled.) -/
def pythonInt (s : String) : Option Int :=
  match (pyStrip s).toList with
  | '+' :: rest => (pyDigits rest).map Int.ofNat
  | '-' :: rest => (pyDigits rest).map (fun n => -(n : Int))
  | l => (pyDigits l).map Int.ofNat

/-- Model of Python `s.split(c)` for a single-character separator:
splits at every occurrence, keeping empty parts. -/
def pySplitCharAux (c : Char) : List Char → List Char → List String
  | [], acc => [String.mk acc.reverse]
  | x :: xs, acc =>
    if x = c then String.mk acc.reverse :: pySplitCharAux c xs []
    else pySplitCharAux c xs (x :: acc)

def pySplitChar (s : String) (c : Char) : List String :=
  pySplitCharAux c s.toList []

/-- Model of Python `s.splitlines()` restricted to the line breaks
appearing in this system's data: splits at LF, CR and CRLF, with no empty
final line for a trailing line break. -/
def pySplitlinesAux : List Char → List Char → List String
  | [], acc => if acc.isEmpty then [] else [String.mk acc.reverse]
  | '\n' :: rest, acc => String.mk acc.reverse :: pySplitlinesAux rest []
  | '\r' :: '\n' :: rest, acc => String.mk acc.reverse :: pySplitlinesAux rest []
  | '\r' :: rest, acc => String.mk acc.reverse :: pySplitlinesAux rest []
  | x :: rest, acc => pySplitlinesAux rest (x :: acc)

def pySplitlines (s : String) : List String :=
  pySplitlinesAux s.toList []

/-- Character membership in a string, model of Python `c in s` for a
single character. -/
def containsChar (s : String) (c : Char) : Bool :=
  s.toList.contains c

/-- One WiFi network entry produced by the scan parser
(api/wifi.py lines 24-34). -/
structure Network where
  ssid : String
  signal : Int
  security : String
deriving Repr, DecidableEq

/-- JSON rendering of a network entry, in the key order of the source. -/
def networkToPyVal (n : Network) : PyVal :=
  .dict [("ssid", .str n.ssid), ("signal", .int n.signal), ("security", .str n.security)]

/-- Message of the `ValueError` raised by `int(signal)` on a non-numeric
signal field. -/
def valueErrMsg : String := "ValueError: invalid literal for int with base 10"

/-- The parsing loop of `scan_wifi_networks` (api/wifi.py lines 24-34)
over the split lines of the scan output.  A line is considered when it is
non-empty and contains a colon; with at least 3 colon-separated parts the
entry is kept, with `int(parts[1])` raising `ValueError` (modelled as
`Except.error`) when the signal field is not an integer.  The `getD`
defaults are dead: the length guard bounds the accesses. -/
def parseLines : List String → Except String (List Network)
  | [] => .ok []
  | line :: rest =>
    if !line.isEmpty && containsChar line ':' then
      let parts := pySplitChar line ':'
      if 3 ≤ parts.length then
        match pythonInt (parts[1]?.getD "") with
        | Option.none => .error valueErrMsg
        | some n => do
          let tail ← parseLines rest
          pure (⟨parts[0]?.getD "", n, parts[2]?.getD ""⟩ :: tail)
      else parseLines rest
    else parseLines rest

/-- Model of Python `sorted(networks, key=lambda x: x.signal, reverse=True)`:
the stable descending insertion sort on the signal field. -/
def sortDescBySignal (l : List Network) : List Network :=
  List.insertionSort (fun a b => b.signal ≤ a.signal) l

/-- Outcome of the `subprocess.run([WIFI_MANAGER, 'scan', interface],
check=True)` call: captured stdout on exit code 0, or the
`CalledProcessError` raised on a non-zero exit (check=True). -/
inductive ScanOutcome where
  | ok (stdout : String)
  | calledProcessError (stderr : String)

/-- Model of the `/wifi/scan` handler `scan_wifi_networks`
(api/wifi.py lines 11-44).  `Except.error` models an exception escaping
the handler (only `CalledProcessError` is caught there; the `ValueError`
from `int(signal)` propagates). -/
def scan_wifi_networks (outcome : ScanOutcome) : Except String Response :=
  match outcome with
  | .calledProcessError stderr =>
    .ok ⟨500, [("success", .bool false),
               ("error", .str ("Failed to scan WiFi networks: " ++ stderr))]⟩
  | .ok stdout => do
    let networks ← parseLines (pySplitlines stdout)
    pure ⟨200, [("success", .bool true),
                ("networks", .list ((sortDescBySignal networks).map networkToPyVal))]⟩

/-- Path of the WiFi manager script (api/wifi.py line 9). -/
def WIFI_MANAGER : String := "/usr/local/bin/wifi-manager.sh"

/-- The `subprocess.run` invocation performed by the `/wifi/scan` handler
(api/wifi.py lines 18-21): argument vector, `shell` not set, **no
`timeout` argument**, `check=True`. -/
def scanWifiInvocation (interface : String) : SubprocessCall :=
  ⟨[WIFI_MANAGER, "scan", interface], false, Option.none, true⟩

/-- The command string sent by `toggle_exit_node` and
`get_tailscale_status` to read the VPN status. -/
def tsStatusCmd : String := "tailscale status --json"

def enableExitNodeCmd : String := "tailscale set --advertise-exit-node"

def disableExitNodeCmd : String := "tailscale set --exit-node="

/-- The 500 response produced by a handler's outermost `except` clause. -/
def internalErrorResp : Response :=
  ⟨500, [("success", .bool false), ("message", .str "Internal server error")]⟩

/-- Model of the message of a `json.JSONDecodeError`; the concrete text
depends on the input in CPython, which the claims never rely on. -/
def jsonDecodeErrMsg : String := "JSONDecodeError: Expecting value"

/-- Model of the `/tailscale/toggle-exit-node` handler `toggle_exit_node`
(api/routes.py lines 64-110).  `loads` is the oracle for `json.loads`,
`exec` maps each command string passed to `run_command` to its result,
`db` is the storage outcome seen by `log_action`. -/
def toggle_exit_node (loads : String → Option PyVal)
    (exec : String → CommandResult) (db : DbOutcome) : Response × Trace :=
  let status_result := exec tsStatusCmd
  let t0 : Trace := ⟨[tsStatusCmd], [], []⟩
  if status_result.success = false then
    (⟨500, [("success", .bool false),
            ("message", .str "Failed to get Tailscale status")]⟩, t0)
  else
    match loads status_result.stdout with
    | Option.none =>
      (internalErrorResp,
       { t0 with diag := t0.diag ++ ["Error toggling exit node: " ++ jsonDecodeErrMsg] })
    | some status_data =>
      match (do
          let sv ← pyGetD status_data "Self" (.dict [])
          pyGetD sv "ExitNodeOption" (.bool false) : Except String PyVal) with
      | .error e =>
        (internalErrorResp,
         { t0 with diag := t0.diag ++ ["Error toggling exit node: " ++ e] })
      | .ok curV =>
        let cur := pyTruthy curV
        let cmd := if cur then disableExitNodeCmd else enableExitNodeCmd
        let action := if cur then "disable_exit_node" else "enable_exit_node"
        let message := if cur then "Exit node disabled" else "Exit node enabled"
        let result := exec cmd
        let t1 := { t0 with cmds := t0.cmds ++ [cmd] }
        if result.success = true then
          (⟨200, [("success", .bool true), ("message", .str message),
                  ("exit_node_enabled", .bool (!cur))]⟩,
           log_action db "dashboard" action message true t1)
        else
          (⟨500, [("success", .bool false),
                  ("message", .str ("Failed to toggle exit node: " ++ result.stderr))]⟩,
           log_action db "dashboard" action ("Failed: " ++ result.stderr) false t1)

/-- The mutating command string built by the POST branch of
`manage_routes` (api/routes.py line 163). -/
def advertiseRoutesCmd (routes : List String) : String :=
  "tailscale set --advertise-routes=\"" ++ String.intercalate "," routes ++ "\""

/-- Model of the POST branch of `manage_routes` (api/routes.py lines
139-184).  `isValidNetwork` is the oracle for
`ipaddress.ip_network(route, strict=False)` succeeding; the handler only
branches on its verdict.  The first invalid route (the loop returns at the
first `ValueError`) produces the 400 response. -/
def manage_routes_post (isValidNetwork : String → Bool)
    (exec : String → CommandResult) (db : DbOutcome)
    (routes : List String) : Response × Trace :=
  if routes.isEmpty then
    (⟨400, [("success", .bool false), ("message", .str "No routes provided")]⟩,
     emptyTrace)
  else
    match routes.find? (fun r => !(isValidNetwork r)) with
    | some r =>
      (⟨400, [("success", .bool false),
              ("message", .str ("Invalid CIDR format: " ++ r))]⟩, emptyTrace)
    | Option.none =>
      let routes_str := String.intercalate "," routes
      let cmd := advertiseRoutesCmd routes
      let result := exec cmd
      let t1 : Trace := ⟨[cmd], [], []⟩
      if result.success = true then
        (⟨200, [("success", .bool true),
                ("message", .str ("Routes updated: " ++ routes_str)),
                ("routes", .list (routes.map PyVal.str))]⟩,
         log_action db "dashboard" "update_routes" ("Routes: " ++ routes_str) true t1)
      else
        (⟨500, [("success", .bool false),
                ("message", .str ("Failed to update routes: " ++ result.stderr))]⟩,
         log_action db "dashboard" "update_routes" ("Failed: " ++ result.stderr) false t1)

/-- The fixed allow-list of `restart_service` (api/routes.py line 375). -/
def allowed_services : List String :=
  ["tailscaled", "headscale", "headplane", "casaos", "cockpit"]

/-- The allow-list of `get_service_logs` (api/routes.py line 599). -/
def logs_allowed_services : List String :=
  ["tailscaled", "headscale", "headplane", "casaos", "cockpit", "igel-monitor"]

/-- Model of the `/system/restart-service` handler `restart_service`
(api/routes.py lines 368-402). -/
def restart_service (exec : String → CommandResult) (db : DbOutcome)
    (service : String) : Response × Trace :=
  if allowed_services.contains service = false then
    (⟨400, [("success", .bool false),
            ("message", .str ("Service not allowed. Allowed: "
              ++ String.intercalate ", " allowed_services))]⟩, emptyTrace)
  else
    let cmd := "systemctl restart " ++ service
    let result := exec cmd
    let t1 : Trace := ⟨[cmd], [], []⟩
    if result.success = true then
      (⟨200, [("success", .bool true),
              ("message", .str ("Service " ++ service ++ " restarted"))]⟩,
       log_action db "dashboard" "restart_service" ("Service: " ++ service) true t1)
    else
      (⟨500, [("success", .bool false),
              ("message", .str ("Failed to restart " ++ service ++ ": " ++ result.stderr))]⟩,
       t1)

/-- Model of the `/system/logs/<service>` handler `get_service_logs`
(api/routes.py lines 595-627).  `lines` is the `lines` query argument
(default `"50"`). -/
def get_service_logs (exec : String → CommandResult)
    (service : String) (lines : String) : Response × Trace :=
  if logs_allowed_services.contains service = false then
    (⟨400, [("success", .bool false),
            ("message", .str ("Service not allowed. Allowed: "
              ++ String.intercalate ", " logs_allowed_services))]⟩, emptyTrace)
  else
    let cmd := "journalctl -u " ++ service ++ " -n " ++ lines ++ " --no-pager"
    let result := exec cmd
    let t1 : Trace := ⟨[cmd], [], []⟩
    if result.success = true then
      (⟨200, [("success", .bool true), ("logs", .str result.stdout),
              ("service", .str service)]⟩, t1)
    else
      (⟨500, [("success", .bool false),
              ("message", .str ("Failed to get logs for " ++ service ++ ": "
                ++ result.stderr))]⟩, t1)

/-- The `advertised_routes` computation of `get_tailscale_status`
(app.py lines 196-204): a second status fetch, decoded and probed with
`'Self' in routes_data and 'PrimaryRoutes' in routes_data['Self']`; any
exception inside the inner `try` leaves the `[]` default. -/
def advertisedRoutesOf (loads : String → Option PyVal)
    (routes_result : CommandResult) : PyVal :=
  if routes_result.success = true then
    match loads routes_result.stdout with
    | Option.none => .list []
    | some rd =>
      match (do
          let c1 ← pyContains rd "Self"
          if c1 then do
            let sv ← pySubscript rd "Self"
            let c2 ← pyContains sv "PrimaryRoutes"
            if c2 then pySubscript sv "PrimaryRoutes" else pure (PyVal.list [])
          else pure (PyVal.list []) : Except String PyVal) with
      | .ok v => v
      | .error _ => .list []
  else .list []

/-- The `exit_node_enabled` computation of `get_tailscale_status`
(app.py lines 206-214): a third status fetch, decoded and probed with
`exit_data.get('Self', {}).get('ExitNodeOption', False)`; any exception
inside the inner `try` leaves the `False` default. -/
def exitNodeEnabledOf (loads : String → Option PyVal)
    (exit_node_result : CommandResult) : PyVal :=
  if exit_node_result.success = true then
    match loads exit_node_result.stdout with
    | Option.none => .bool false
    | some ed =>
      match (do
          let sv ← pyGetD ed "Self" (.dict [])
          pyGetD sv "ExitNodeOption" (.bool false) : Except String PyVal) with
      | .ok v => v
      | .error _ => .bool false
  else .bool false

/-- The tail of `get_tailscale_status` (app.py lines 217-228), in source
evaluation order: `peer_count` is computed before the result dict, whose
fields evaluate left to right (`self_ip` indexes the first Tailscale IP
and is the only place an `IndexError` can arise).  `Except.error` models
an exception reaching the surrounding handler `except`. -/
def tailscaleStatusAssemble (status_data advertised exitNodeV : PyVal) :
    Except String PyVal := do
  let peersV ← pyGetD status_data "Peer" (.dict [])
  let peer_count ← pyLen peersV
  let selfV ← pyGetD status_data "Self" (.dict [])
  let ipsV ← pyGetD selfV "TailscaleIPs" (.list [.str "Unknown"])
  let self_ip ← pyIndex ipsV 0
  let selfV2 ← pyGetD status_data "Self" (.dict [])
  let hostname ← pyGetD selfV2 "HostName" (.str "Unknown")
  let backend ← pyGetD status_data "BackendState" (.str "Unknown")
  pure (.dict [("connected", .bool true), ("self_ip", self_ip),
               ("hostname", hostname), ("exit_node_enabled", exitNodeV),
               ("advertised_routes", advertised),
               ("peer_count", .int peer_count), ("peers", peersV),
               ("backend_state", backend)])

/-- Model of `get_tailscale_status` (app.py lines 185-231).  The three
`CommandResult` arguments are the outcomes of the three consecutive
`run_command("tailscale status --json")` calls; `loads` is the oracle for
`json.loads`.  Any exception escaping the body is caught by the outer
`except` which returns `{'connected': False, 'error': str(e)}`. -/
def get_tailscale_status (loads : String → Option PyVal)
    (status_result routes_result exit_node_result : CommandResult) : PyVal :=
  if status_result.success = false then
    .dict [("connected", .bool false), ("error", .str status_result.stderr)]
  else
    match loads status_result.stdout with
    | Option.none => .dict [("connected", .bool false), ("error", .str jsonDecodeErrMsg)]
    | some status_data =>
      let advertised := advertisedRoutesOf loads routes_result
      let exitNodeV := exitNodeEnabledOf loads exit_node_result
      match tailscaleStatusAssemble status_data advertised exitNodeV with
      | .ok v => v
      | .error e => .dict [("connected", .bool false), ("error", .str e)]

/-! Helper lemmas shared by the claim proofs. -/

@[simp]
theorem except_bind_ok {α β ε : Type} (a : α) (f : α → Except ε β) :
    (Except.ok a >>= f : Except ε β) = f a := rfl

@[simp]
theorem except_bind_error {α β ε : Type} (e : ε) (f : α → Except ε β) :
    (Except.error e >>= f : Except ε β) = Except.error e := rfl

theorem log_action_cmds (db : DbOutcome) (u a d : String) (s : Bool) (t : Trace) :
    (log_action db u a d s t).cmds = t.cmds := by
  cases db <;> rfl

/-- C1: for every command string and timeout value, `run_command` returns a
`CommandResult` record and never propagates an exception (`runCommandResult`
is total over all `subprocess.run` outcomes): on normal exit the record is
`success = (returncode == 0)` with stdout and stderr stripped; on timeout it
is `{success := false, stdout := "", stderr := "Command timed out",
returncode := -1}`; on a launch failure it is the same with `stderr` set to
the description of the error. -/
theorem run_command_contract (command : String) (timeout : Nat)
    (out err m : String) (rc : Int) :
    run_command command timeout (.completed out err rc)
      = (runCommandCall command timeout, ⟨rc == 0, pyStrip out, pyStrip err, rc⟩)
    ∧ ((runCommandResult (.completed out err rc)).success = true ↔ rc = 0)
    ∧ run_command command timeout .timedOut
      = (runCommandCall command timeout, ⟨false, "", "Command timed out", -1⟩)
    ∧ run_command command timeout (.launchFailure m)
      = (runCommandCall command timeout, ⟨false, "", m, -1⟩) := by
  refine ⟨rfl, ?_, rfl, rfl⟩
  simp [runCommandResult]

/-- C5 counterexample: the `subprocess.run` invocation issued by the WiFi
scan handler carries no `timeout` argument at all, so it is not bounded by
the Command Runner's timeout — the claim that every external-command
invocation is bounded fails at the WiFi endpoints. -/
theorem scan_invocation_unbounded :
    (scanWifiInvocation "wlan0").timeout = Option.none := rfl

/-- C5 (amended): every external-command invocation made through
`run_command` carries the bounded timeout it was given (default 30
seconds); the WiFi endpoints instead call the subprocess API directly with
no timeout argument, so those calls block until the child exits. -/
theorem run_command_timeout_bound (command interface : String)
    (timeout : Nat) (outcome : RunOutcome) :
    (run_command command timeout outcome).1.timeout = some timeout
    ∧ RUN_COMMAND_DEFAULT_TIMEOUT = 30
    ∧ (scanWifiInvocation interface).timeout = Option.none :=
  ⟨rfl, rfl, rfl⟩

/-- C2: a storage failure inside `log_action` is swallowed: the function
returns normally (it is total), appends nothing to the audit table and one
line to the process diagnostic log; and the primary response of a handler
calling it (here the exit-node toggle) is identical whatever the audit
storage outcome. -/
theorem log_action_never_blocks :
    (∀ (m user action details : String) (success : Bool) (t : Trace),
      log_action (.failure m) user action details success t
        = { t with diag := t.diag ++ ["Failed to log action: " ++ m] })
    ∧ (∀ (loads : String → Option PyVal) (exec : String → CommandResult)
        (db : DbOutcome),
      (toggle_exit_node loads exec db).1 = (toggle_exit_node loads exec .ok).1) := by
  constructor
  · intro m user action details success t
    rfl
  · intro loads exec db
    simp only [toggle_exit_node]
    split
    · rfl
    · split
      · rfl
      · split
        · rfl
        · split <;> split <;> rfl

/-- C9: a service name outside the fixed allow-list makes
`restart_service` return HTTP 400 with no external command issued, and a
name outside the logs allow-list makes `get_service_logs` return HTTP 400
with no external command issued. -/
theorem service_allowlist_enforced (exec : String → CommandResult)
    (db : DbOutcome) (service lines : String) :
    (allowed_services.contains service = false →
      (restart_service exec db service).1.status = 400
      ∧ (restart_service exec db service).2.cmds = [])
    ∧ (logs_allowed_services.contains service = false →
      (get_service_logs exec service lines).1.status = 400
      ∧ (get_service_logs exec service lines).2.cmds = []) := by
  constructor
  · intro h
    have h' : service ∉ allowed_services := by simpa using h
    simp [restart_service, h', emptyTrace]
  · intro h
    have h' : service ∉ logs_allowed_services := by simpa using h
    simp [get_service_logs, h', emptyTrace]

/-- Concrete execution oracle for witnesses: every command succeeds. -/
def execAllOk : String → CommandResult := fun _ => ⟨true, "ok", "", 0⟩

/-- Witness for C9 at the disallowed service name `nginx`. -/
theorem service_allowlist_enforced_witness :
    (restart_service execAllOk .ok "nginx").1.status = 400
    ∧ (restart_service execAllOk .ok "nginx").2.cmds = [] :=
  (service_allowlist_enforced execAllOk .ok "nginx" "50").1 (by decide)

/-- C3: the POST branch of `manage_routes` rejects with HTTP 400 and
issues no external command whenever the submitted route list is empty or
contains an entry the CIDR validator refuses; the mutating
advertise-routes command is issued exactly when the list is non-empty and
every entry validates — validation of the whole batch happens before any
mutation. -/
theorem manage_routes_batch_validation (isValidNetwork : String → Bool)
    (exec : String → CommandResult) (db : DbOutcome) (routes : List String) :
    ((routes = [] ∨ ∃ r ∈ routes, isValidNetwork r = false) →
      (manage_routes_post isValidNetwork exec db routes).1.status = 400
      ∧ (manage_routes_post isValidNetwork exec db routes).2.cmds = [])
    ∧ ((manage_routes_post isValidNetwork exec db routes).2.cmds ≠ [] →
      routes ≠ [] ∧ ∀ r ∈ routes, isValidNetwork r = true)
    ∧ ((routes ≠ [] ∧ ∀ r ∈ routes, isValidNetwork r = true) →
      (manage_routes_post isValidNetwork exec db routes).2.cmds
        = [advertiseRoutesCmd routes]) := by
  refine ⟨?_, ?_, ?_⟩
  · rintro (rfl | ⟨r, hr, hv⟩)
    · simp [manage_routes_post, emptyTrace]
    · have hne : routes.isEmpty = false := by
        cases routes with
        | nil => cases hr
        | cons a l => rfl
      cases hfind : routes.find? (fun r => !(isValidNetwork r)) with
      | none =>
        exfalso
        have := List.find?_eq_none.mp hfind r hr
        simp [hv] at this
      | some bad =>
        simp [manage_routes_post, hne, hfind, emptyTrace]
  · intro hc
    by_cases hE : routes.isEmpty
    · exfalso
      apply hc
      simp [manage_routes_post, hE, emptyTrace]
    · cases hfind : routes.find? (fun r => !(isValidNetwork r)) with
      | some bad =>
        exfalso
        apply hc
        simp [manage_routes_post, hE, hfind, emptyTrace]
      | none =>
        constructor
        · intro h
          rw [h] at hE
          exact hE rfl
        · intro r hr
          have := List.find?_eq_none.mp hfind r hr
          simpa using this
  · rintro ⟨hne, hall⟩
    have hE : routes.isEmpty = false := by
      cases routes with
      | nil => exact absurd rfl hne
      | cons a l => rfl
    have hfind : routes.find? (fun r => !(isValidNetwork r)) = Option.none := by
      rw [List.find?_eq_none]
      intro r hr
      simp [hall r hr]
    simp only [manage_routes_post, hE, Bool.false_eq_true, if_false, hfind]
    split <;> simp [log_action_cmds]

/-- Concrete CIDR-validator oracle for the C3 witness: refuses exactly the
string the spec's own example uses. -/
def cidrOracle : String → Bool := fun r => r != "not-a-cidr"

/-- Witness for C3 at the spec's example batch: one invalid entry rejects
the whole batch with no command issued. -/
theorem manage_routes_batch_validation_witness :
    (manage_routes_post cidrOracle execAllOk .ok ["10.0.0.0/24", "not-a-cidr"]).1.status = 400
    ∧ (manage_routes_post cidrOracle execAllOk .ok ["10.0.0.0/24", "not-a-cidr"]).2.cmds = [] :=
  (manage_routes_batch_validation cidrOracle execAllOk .ok
      ["10.0.0.0/24", "not-a-cidr"]).1
    (Or.inr ⟨"not-a-cidr", by simp, by decide⟩)


/-- A line splitting into at least 3 colon-separated fields whose signal
field does not parse as a Python integer: the shape on which `int(signal)`
raises `ValueError` inside the scan loop. -/
def badSignalLine (line : String) : Bool :=
  !line.isEmpty && containsChar line ':'
    && decide (3 ≤ (pySplitChar line ':').length)
    && (pythonInt ((pySplitChar line ':')[1]?.getD "")).isNone

/-- A line the scan loop considers for keeping: non-empty, contains a
colon, and splits into at least 3 fields. -/
def scanLineKept (line : String) : Bool :=
  !line.isEmpty && containsChar line ':'
    && decide (3 ≤ (pySplitChar line ':').length)

/-- The entry a single line contributes to the scan result, stated from
the spec side for comparison with the loop: kept-shape lines with a
parsable signal yield an entry, every other line yields nothing. -/
def lineEntry (line : String) : Option Network :=
  if scanLineKept line then
    match pythonInt ((pySplitChar line ':')[1]?.getD "") with
    | some n =>
      some ⟨(pySplitChar line ':')[0]?.getD "", n, (pySplitChar line ':')[2]?.getD ""⟩
    | Option.none => Option.none
  else Option.none

theorem parseLines_cons_bad (x : String) (xs : List String)
    (h : badSignalLine x = true) :
    parseLines (x :: xs) = .error valueErrMsg := by
  simp only [badSignalLine, Bool.and_eq_true, decide_eq_true_eq,
    Option.isNone_iff_eq_none] at h
  obtain ⟨⟨⟨h1, h2⟩, h3⟩, h4⟩ := h
  simp [parseLines, h1, h2, h3, h4]

theorem parseLines_cons_error (x : String) (xs : List String)
    (h : parseLines xs = .error valueErrMsg) :
    parseLines (x :: xs) = .error valueErrMsg := by
  by_cases hc : (!x.isEmpty && containsChar x ':') = true
  · by_cases hl : 3 ≤ (pySplitChar x ':').length
    · cases hp : pythonInt ((pySplitChar x ':')[1]?.getD "") with
      | none => simp [parseLines, hc, hl, hp]
      | some n => simp [parseLines, hc, hl, hp, h]
    · simp [parseLines, hc, hl, h]
  · simp [parseLines, hc, h]

theorem parseLines_error_of_bad (l : List String)
    (h : ∃ line ∈ l, badSignalLine line = true) :
    parseLines l = .error valueErrMsg := by
  induction l with
  | nil =>
    obtain ⟨line, hmem, -⟩ := h
    cases hmem
  | cons x xs ih =>
    obtain ⟨line, hmem, hbad⟩ := h
    rw [List.mem_cons] at hmem
    rcases hmem with rfl | hmem
    · exact parseLines_cons_bad line xs hbad
    · exact parseLines_cons_error x xs (ih ⟨line, hmem, hbad⟩)

theorem parseLines_ok_of_noBad (l : List String)
    (h : ∀ line ∈ l, badSignalLine line = false) :
    parseLines l = .ok (l.filterMap lineEntry) := by
  induction l with
  | nil => rfl
  | cons x xs ih =>
    have hx := h x (by simp)
    have ih' := ih (fun line hl => h line (List.mem_cons_of_mem x hl))
    by_cases hc : (!x.isEmpty && containsChar x ':') = true
    · by_cases hl3 : 3 ≤ (pySplitChar x ':').length
      · cases hp : pythonInt ((pySplitChar x ':')[1]?.getD "") with
        | none =>
          exfalso
          rw [badSignalLine] at hx
          simp [hc, hl3, hp] at hx
        | some n =>
          simp [parseLines, hc, hl3, hp, ih', List.filterMap_cons, lineEntry,
            scanLineKept]
      · have hns : scanLineKept x = false := by
          simp [scanLineKept, hl3]
        simp [parseLines, hc, hl3, ih', List.filterMap_cons, lineEntry, hns]
    · have hcf : (!x.isEmpty && containsChar x ':') = false := by
        cases hv : (!x.isEmpty && containsChar x ':') with
        | false => rfl
        | true => exact absurd hv hc
      have hns : scanLineKept x = false := by
        cases he : !x.isEmpty with
        | false => simp [scanLineKept, he]
        | true =>
          have hcc : containsChar x ':' = false := by
            rw [he] at hcf
            simpa using hcf
          simp [scanLineKept, hcc]
      simp [parseLines, hcf, ih', List.filterMap_cons, lineEntry, hns]

instance : IsTotal Network (fun a b => b.signal ≤ a.signal) :=
  ⟨fun a b => le_total b.signal a.signal⟩

instance : IsTrans Network (fun a b => b.signal ≤ a.signal) :=
  ⟨fun _ _ _ hab hbc => le_trans hbc hab⟩

/-- C6 counterexample: on a scan output whose second line has three
colon-separated fields but a non-integer signal, the handler does not skip
the line and return the remaining well-formed entry — the `ValueError`
from `int(signal)` escapes the handler (only `CalledProcessError` is
caught), so no success envelope is returned at all. -/
theorem scan_skip_claim_counterexample :
    scan_wifi_networks (.ok "alpha:50:wpa2\nbeta:xx:wpa2")
      = .error valueErrMsg := by rfl

/-- C6 (amended): a scan output containing any line with at least 3
colon-separated fields whose signal field does not parse as an integer
makes the whole scan abort with an uncaught `ValueError` (HTTP 500 from
the framework); the line is not skipped and no entries are returned. -/
theorem scan_bad_signal_aborts (stdout : String)
    (h : ∃ line ∈ pySplitlines stdout, badSignalLine line = true) :
    scan_wifi_networks (.ok stdout) = .error valueErrMsg := by
  have hp := parseLines_error_of_bad (pySplitlines stdout) h
  simp only [scan_wifi_networks]
  rw [hp]
  rfl

/-- Witness for the amended C6 at a concrete two-line scan output. -/
theorem scan_bad_signal_aborts_witness :
    scan_wifi_networks (.ok "one:1:a\nbad:notanint:b") = .error valueErrMsg :=
  scan_bad_signal_aborts "one:1:a\nbad:notanint:b"
    ⟨"bad:notanint:b", by decide, by decide⟩

/-- C8 counterexample: a scan output whose only line has three
colon-separated fields but a non-integer signal is neither kept nor
skipped — the claim's universally quantified success return (here the
empty entry list) fails because the parser raises instead. -/
theorem scan_sorted_claim_counterexample :
    scan_wifi_networks (.ok "solo:bad:sec") = .error valueErrMsg := by rfl

/-- C8 (amended): for every scan output in which every line with at least
3 colon-separated fields carries an integer-parsable signal, the parser
silently skips every line that does not split into at least 3
colon-separated fields (including empty lines and lines without a colon),
keeps exactly the well-formed `ssid:signal:security` lines (in input
order, as `lineEntry` characterises), and returns them in the success
envelope sorted by signal strength in descending order. -/
theorem scan_parser_spec (stdout : String)
    (h : ∀ line ∈ pySplitlines stdout, badSignalLine line = false) :
    parseLines (pySplitlines stdout)
      = .ok ((pySplitlines stdout).filterMap lineEntry)
    ∧ scan_wifi_networks (.ok stdout)
      = .ok ⟨200, [("success", .bool true),
          ("networks", .list ((sortDescBySignal
            ((pySplitlines stdout).filterMap lineEntry)).map networkToPyVal))]⟩
    ∧ (sortDescBySignal ((pySplitlines stdout).filterMap lineEntry)).Perm
        ((pySplitlines stdout).filterMap lineEntry)
    ∧ List.Sorted (fun a b => b.signal ≤ a.signal)
        (sortDescBySignal ((pySplitlines stdout).filterMap lineEntry)) := by
  have hok := parseLines_ok_of_noBad _ h
  refine ⟨hok, ?_, List.perm_insertionSort _ _, List.sorted_insertionSort _ _⟩
  simp only [scan_wifi_networks]
  rw [hok]
  rfl

/-- Witness for the amended C8 at a concrete scan output mixing
well-formed, empty, colon-free, extra-field and two-field lines. -/
theorem scan_parser_spec_witness :
    scan_wifi_networks (.ok "a:50:wpa\n\nnocolon\nb:70:wpa:extra\nx:y")
      = .ok ⟨200, [("success", .bool true),
          ("networks", .list ((sortDescBySignal
            ((pySplitlines "a:50:wpa\n\nnocolon\nb:70:wpa:extra\nx:y").filterMap
              lineEntry)).map networkToPyVal))]⟩ :=
  (scan_parser_spec "a:50:wpa\n\nnocolon\nb:70:wpa:extra\nx:y" (by decide)).2.1

/-- C4: the exit-node toggle reads `Self.ExitNodeOption` from the status
command.  If the status read fails, it returns a failure response having
issued no write command.  If the read value is falsy it issues the enable
command, and on success returns `exit_node_enabled = true` with exactly
one successful audit entry of action `enable_exit_node`.  If the read
value is truthy it issues the disable command.  If the write command
fails, one audit entry with `success = false` is written and the failure
envelope carries the tool's stderr (shown for both branches). -/
theorem toggle_exit_node_spec (loads : String → Option PyVal)
    (exec : String → CommandResult) :
    ((exec tsStatusCmd).success = false →
      toggle_exit_node loads exec .ok
        = (⟨500, [("success", .bool false),
                  ("message", .str "Failed to get Tailscale status")]⟩,
           ⟨[tsStatusCmd], [], []⟩))
    ∧ (∀ (d curV : PyVal), (exec tsStatusCmd).success = true →
        loads (exec tsStatusCmd).stdout = some d →
        (do
          let sv ← pyGetD d "Self" (.dict [])
          pyGetD sv "ExitNodeOption" (.bool false) : Except String PyVal) = .ok curV →
        ((pyTruthy curV = false → (exec enableExitNodeCmd).success = true →
          toggle_exit_node loads exec .ok
            = (⟨200, [("success", .bool true),
                      ("message", .str "Exit node enabled"),
                      ("exit_node_enabled", .bool true)]⟩,
               ⟨[tsStatusCmd, enableExitNodeCmd],
                [⟨"dashboard", "enable_exit_node", "Exit node enabled", true⟩], []⟩))
        ∧ (pyTruthy curV = true →
          (toggle_exit_node loads exec .ok).2.cmds = [tsStatusCmd, disableExitNodeCmd])
        ∧ (pyTruthy curV = false → (exec enableExitNodeCmd).success = false →
          toggle_exit_node loads exec .ok
            = (⟨500, [("success", .bool false),
                      ("message", .str ("Failed to toggle exit node: "
                        ++ (exec enableExitNodeCmd).stderr))]⟩,
               ⟨[tsStatusCmd, enableExitNodeCmd],
                [⟨"dashboard", "enable_exit_node",
                  "Failed: " ++ (exec enableExitNodeCmd).stderr, false⟩], []⟩))
        ∧ (pyTruthy curV = true → (exec disableExitNodeCmd).success = false →
          toggle_exit_node loads exec .ok
            = (⟨500, [("success", .bool false),
                      ("message", .str ("Failed to toggle exit node: "
                        ++ (exec disableExitNodeCmd).stderr))]⟩,
               ⟨[tsStatusCmd, disableExitNodeCmd],
                [⟨"dashboard", "disable_exit_node",
                  "Failed: " ++ (exec disableExitNodeCmd).stderr, false⟩], []⟩)))) := by
  constructor
  · intro h
    simp [toggle_exit_node, h]
  · intro d curV hs hl hdo
    refine ⟨?_, ?_, ?_, ?_⟩
    · intro hcur hw
      simp [toggle_exit_node, hs, hl, hdo, hcur, hw, log_action]
    · intro hcur
      by_cases hw : (exec disableExitNodeCmd).success = true <;>
        simp [toggle_exit_node, hs, hl, hdo, hcur, hw, log_action]
    · intro hcur hw
      simp [toggle_exit_node, hs, hl, hdo, hcur, hw, log_action]
    · intro hcur hw
      simp [toggle_exit_node, hs, hl, hdo, hcur, hw, log_action]

/-- Concrete json oracle for the C4 witness: every stdout decodes to the
empty JSON object, so `ExitNodeOption` takes its `False` default. -/
def loadsEmptyObj : String → Option PyVal := fun _ => some (.dict [])

/-- Witness for C4: with the tool reporting an empty status object and
every command succeeding, the toggle issues the enable command, reports
`exit_node_enabled = true`, and writes one successful
`enable_exit_node` audit entry. -/
theorem toggle_exit_node_spec_witness :
    toggle_exit_node loadsEmptyObj execAllOk .ok
      = (⟨200, [("success", .bool true),
                ("message", .str "Exit node enabled"),
                ("exit_node_enabled", .bool true)]⟩,
         ⟨[tsStatusCmd, enableExitNodeCmd],
          [⟨"dashboard", "enable_exit_node", "Exit node enabled", true⟩], []⟩) :=
  ((toggle_exit_node_spec loadsEmptyObj execAllOk).2 (.dict []) (.bool false)
      rfl rfl rfl).1 rfl rfl

theorem lookup_self_field_none {kvs s : List (String × PyVal)} {f : String}
    (hB : List.lookup "Self" kvs = some (.dict s))
    (h : List.lookup "Self" kvs = Option.none
      ∨ ∃ s', List.lookup "Self" kvs = some (.dict s')
          ∧ List.lookup f s' = Option.none) :
    List.lookup f s = Option.none := by
  rcases h with h | ⟨s', h1, h2⟩
  · rw [hB] at h
    cases h
  · rw [hB] at h1
    have h3 := Option.some.inj h1
    injection h3 with h4
    subst h4
    exact h2

/-- C7 (amended): for every well-formed JSON VPN status payload that is an
object in which `Self`, when present, is an object whose `TailscaleIPs`,
when present, is a non-empty list, and whose `Peer`, when present, is an
object, `get_tailscale_status` returns `connected = true` and replaces
each missing optional field by its default: `exit_node_enabled = false`
when `Self.ExitNodeOption` is absent, `advertised_routes = []` when
`Self.PrimaryRoutes` is absent, `backend_state = "Unknown"` when
`BackendState` is absent, `hostname = "Unknown"` when `Self.HostName` is
absent, and `peer_count = 0` when `Peer` is absent, rather than failing
the whole parse.  (The payload with `Self.TailscaleIPs` present and empty
is excluded: there the code discards the whole status, see the
counterexample.) -/
theorem tailscale_status_defaults (loads : String → Option PyVal)
    (r : CommandResult) (kvs : List (String × PyVal))
    (hs : r.success = true) (hl : loads r.stdout = some (.dict kvs))
    (hSelf : List.lookup "Self" kvs = Option.none
      ∨ ∃ s, List.lookup "Self" kvs = some (.dict s)
        ∧ (List.lookup "TailscaleIPs" s = Option.none
          ∨ ∃ ips, List.lookup "TailscaleIPs" s = some (.list ips) ∧ ips ≠ []))
    (hPeer : List.lookup "Peer" kvs = Option.none
      ∨ ∃ p, List.lookup "Peer" kvs = some (.dict p)) :
    dictLookup (get_tailscale_status loads r r r) "connected" = some (.bool true)
    ∧ ((List.lookup "Self" kvs = Option.none
        ∨ ∃ s, List.lookup "Self" kvs = some (.dict s)
          ∧ List.lookup "ExitNodeOption" s = Option.none) →
      dictLookup (get_tailscale_status loads r r r) "exit_node_enabled"
        = some (.bool false))
    ∧ ((List.lookup "Self" kvs = Option.none
        ∨ ∃ s, List.lookup "Self" kvs = some (.dict s)
          ∧ List.lookup "PrimaryRoutes" s = Option.none) →
      dictLookup (get_tailscale_status loads r r r) "advertised_routes"
        = some (.list []))
    ∧ (List.lookup "BackendState" kvs = Option.none →
      dictLookup (get_tailscale_status loads r r r) "backend_state"
        = some (.str "Unknown"))
    ∧ ((List.lookup "Self" kvs = Option.none
        ∨ ∃ s, List.lookup "Self" kvs = some (.dict s)
          ∧ List.lookup "HostName" s = Option.none) →
      dictLookup (get_tailscale_status loads r r r) "hostname"
        = some (.str "Unknown"))
    ∧ (List.lookup "Peer" kvs = Option.none →
      dictLookup (get_tailscale_status loads r r r) "peer_count"
        = some (.int 0)) := by
  obtain ⟨pkvs, hpk, hpk0⟩ :
      ∃ pkvs, (List.lookup "Peer" kvs).getD (PyVal.dict []) = .dict pkvs
        ∧ (List.lookup "Peer" kvs = Option.none → pkvs = []) := by
    rcases hPeer with h | ⟨p, h⟩
    · exact ⟨[], by rw [h]; rfl, fun _ => rfl⟩
    · refine ⟨p, by rw [h]; rfl, fun h' => ?_⟩
      rw [h'] at h
      cases h
  rcases hSelf with hA | ⟨s, hB, hIps⟩
  · have hsk : (List.lookup "Self" kvs).getD (PyVal.dict []) = .dict [] := by
      rw [hA]
      rfl
    have hassem : tailscaleStatusAssemble (.dict kvs)
        (advertisedRoutesOf loads r) (exitNodeEnabledOf loads r)
        = .ok (.dict [("connected", .bool true), ("self_ip", .str "Unknown"),
            ("hostname", .str "Unknown"),
            ("exit_node_enabled", exitNodeEnabledOf loads r),
            ("advertised_routes", advertisedRoutesOf loads r),
            ("peer_count", .int pkvs.length), ("peers", .dict pkvs),
            ("backend_state",
              (List.lookup "BackendState" kvs).getD (.str "Unknown"))]) := by
      simp only [tailscaleStatusAssemble, pyGetD, except_bind_ok, hpk, pyLen, hsk]
      rfl
    have hmain : get_tailscale_status loads r r r
        = .dict [("connected", .bool true), ("self_ip", .str "Unknown"),
            ("hostname", .str "Unknown"),
            ("exit_node_enabled", exitNodeEnabledOf loads r),
            ("advertised_routes", advertisedRoutesOf loads r),
            ("peer_count", .int pkvs.length), ("peers", .dict pkvs),
            ("backend_state",
              (List.lookup "BackendState" kvs).getD (.str "Unknown"))] := by
      simp only [get_tailscale_status, hs, Bool.true_eq_false, if_false, hl, hassem]
    have hexv : exitNodeEnabledOf loads r = .bool false := by
      simp [exitNodeEnabledOf, hs, hl, pyGetD, hA]
    have hadv : advertisedRoutesOf loads r = .list [] := by
      simp only [advertisedRoutesOf, hs, if_true, hl, pyContains, hA,
        Option.isSome_none, Bool.false_eq_true, if_false, except_bind_ok]
      rfl
    refine ⟨?_, ?_, ?_, ?_, ?_, ?_⟩
    · rw [hmain]
      rfl
    · intro _
      rw [hmain]
      show some (exitNodeEnabledOf loads r) = some (PyVal.bool false)
      rw [hexv]
    · intro _
      rw [hmain]
      show some (advertisedRoutesOf loads r) = some (PyVal.list [])
      rw [hadv]
    · intro habs
      rw [hmain]
      show some ((List.lookup "BackendState" kvs).getD (PyVal.str "Unknown"))
        = some (PyVal.str "Unknown")
      rw [habs]
      rfl
    · intro _
      rw [hmain]
      rfl
    · intro hpn
      have hplen : pkvs = [] := hpk0 hpn
      rw [hmain]
      show some (PyVal.int pkvs.length) = some (PyVal.int 0)
      rw [hplen]
      rfl
  · have hsk : (List.lookup "Self" kvs).getD (PyVal.dict []) = .dict s := by
      rw [hB]
      rfl
    obtain ⟨ip, hip⟩ :
        ∃ ip, pyIndex ((List.lookup "TailscaleIPs" s).getD
          (PyVal.list [.str "Unknown"])) 0 = .ok ip := by
      rcases hIps with h | ⟨ips, hips, hne⟩
      · exact ⟨.str "Unknown", by rw [h]; rfl⟩
      · cases ips with
        | nil => exact absurd rfl hne
        | cons a l => exact ⟨a, by rw [hips]; simp [pyIndex]⟩
    have hassem : tailscaleStatusAssemble (.dict kvs)
        (advertisedRoutesOf loads r) (exitNodeEnabledOf loads r)
        = .ok (.dict [("connected", .bool true), ("self_ip", ip),
            ("hostname", (List.lookup "HostName" s).getD (.str "Unknown")),
            ("exit_node_enabled", exitNodeEnabledOf loads r),
            ("advertised_routes", advertisedRoutesOf loads r),
            ("peer_count", .int pkvs.length), ("peers", .dict pkvs),
            ("backend_state",
              (List.lookup "BackendState" kvs).getD (.str "Unknown"))]) := by
      simp only [tailscaleStatusAssemble, pyGetD, except_bind_ok, hpk, pyLen, hsk]
      rw [hip]
      simp only [except_bind_ok]
      rfl
    have hmain : get_tailscale_status loads r r r
        = .dict [("connected", .bool true), ("self_ip", ip),
            ("hostname", (List.lookup "HostName" s).getD (.str "Unknown")),
            ("exit_node_enabled", exitNodeEnabledOf loads r),
            ("advertised_routes", advertisedRoutesOf loads r),
            ("peer_count", .int pkvs.length), ("peers", .dict pkvs),
            ("backend_state",
              (List.lookup "BackendState" kvs).getD (.str "Unknown"))] := by
      simp only [get_tailscale_status, hs, Bool.true_eq_false, if_false, hl, hassem]
    refine ⟨?_, ?_, ?_, ?_, ?_, ?_⟩
    · rw [hmain]
      rfl
    · intro h'
      have hE := lookup_self_field_none hB h'
      have hexv : exitNodeEnabledOf loads r = .bool false := by
        simp [exitNodeEnabledOf, hs, hl, pyGetD, hB, hE]
      rw [hmain]
      show some (exitNodeEnabledOf loads r) = some (PyVal.bool false)
      rw [hexv]
    · intro h'
      have hP := lookup_self_field_none hB h'
      have hadv : advertisedRoutesOf loads r = .list [] := by
        simp [advertisedRoutesOf, hs, hl, pyContains, pySubscript, hB, hP]
      rw [hmain]
      show some (advertisedRoutesOf loads r) = some (PyVal.list [])
      rw [hadv]
    · intro habs
      rw [hmain]
      show some ((List.lookup "BackendState" kvs).getD (PyVal.str "Unknown"))
        = some (PyVal.str "Unknown")
      rw [habs]
      rfl
    · intro h'
      have hH := lookup_self_field_none hB h'
      rw [hmain]
      show some ((List.lookup "HostName" s).getD (PyVal.str "Unknown"))
        = some (PyVal.str "Unknown")
      rw [hH]
      rfl
    · intro hpn
      have hplen : pkvs = [] := hpk0 hpn
      rw [hmain]
      show some (PyVal.int pkvs.length) = some (PyVal.int 0)
      rw [hplen]
      rfl

/-- A successful status-command result for concrete status evaluations. -/
def okStatusResult : CommandResult := ⟨true, "statusjson", "", 0⟩

/-- Concrete json oracle for the C7 counterexample: the payload has
`Self.TailscaleIPs` present but empty. -/
def loadsEmptyIps : String → Option PyVal :=
  fun _ => some (.dict [("Self", .dict [("TailscaleIPs", .list [])])])

/-- C7 counterexample: the well-formed JSON VPN status payload
with Self.TailscaleIPs present as an empty list makes
`get_tailscale_status` return `connected = false` (the `IndexError` from
indexing the first IP is caught by the outer handler), not the
`connected = true` result with defaults that the claim asserts for every
well-formed payload. -/
theorem tailscale_status_defaults_counterexample :
    dictLookup (get_tailscale_status loadsEmptyIps
        okStatusResult okStatusResult okStatusResult) "connected"
      = some (.bool false)
    ∧ dictLookup (get_tailscale_status loadsEmptyIps
        okStatusResult okStatusResult okStatusResult) "connected"
      ≠ some (.bool true) := by
  refine ⟨rfl, ?_⟩
  intro h
  rw [show dictLookup (get_tailscale_status loadsEmptyIps
      okStatusResult okStatusResult okStatusResult) "connected"
    = some (PyVal.bool false) from rfl] at h
  simp at h

/-- Concrete json oracle for C7's witness: every stdout decodes to the
empty JSON object, so every optional field is missing. -/
def loadsEmptyStatus : String → Option PyVal := fun _ => some (.dict [])

/-- Witness for the amended C7 at the empty status object: all defaults. -/
theorem tailscale_status_defaults_witness :
    dictLookup (get_tailscale_status loadsEmptyStatus
        okStatusResult okStatusResult okStatusResult) "connected"
      = some (.bool true)
    ∧ dictLookup (get_tailscale_status loadsEmptyStatus
        okStatusResult okStatusResult okStatusResult) "exit_node_enabled"
      = some (.bool false)
    ∧ dictLookup (get_tailscale_status loadsEmptyStatus
        okStatusResult okStatusResult okStatusResult) "advertised_routes"
      = some (.list [])
    ∧ dictLookup (get_tailscale_status loadsEmptyStatus
        okStatusResult okStatusResult okStatusResult) "backend_state"
      = some (.str "Unknown")
    ∧ dictLookup (get_tailscale_status loadsEmptyStatus
        okStatusResult okStatusResult okStatusResult) "hostname"
      = some (.str "Unknown")
    ∧ dictLookup (get_tailscale_status loadsEmptyStatus
        okStatusResult okStatusResult okStatusResult) "peer_count"
      = some (.int 0) := by
  have h := tailscale_status_defaults loadsEmptyStatus okStatusResult []
    rfl rfl (Or.inl rfl) (Or.inl rfl)
  exact ⟨h.1, h.2.1 (Or.inl rfl), h.2.2.1 (Or.inl rfl), h.2.2.2.1 rfl,
    h.2.2.2.2.1 (Or.inl rfl), h.2.2.2.2.2 rfl⟩

/-- Concrete json oracle for C10: `Self.TailscaleIPs` present but empty,
next to successfully parseable fields (`HostName`, `BackendState`). -/
def loadsEmptyIpsRich : String → Option PyVal :=
  fun _ => some (.dict [("Self", .dict [("TailscaleIPs", .list []),
    ("HostName", .str "router")]), ("BackendState", .str "Running")])

/-- C10: when the VPN status JSON contains `Self.TailscaleIPs` as a
present but empty list, `get_tailscale_status` does not return partial
data with defaults: indexing the first IP fails with an `IndexError`, the
surrounding handler catches it, and the function returns
`{connected: false, error: <string>}` — the entire status, including the
successfully parsed `HostName` and `BackendState`, is discarded. -/
theorem tailscale_status_empty_ips_discards_all :
    get_tailscale_status loadsEmptyIpsRich
        okStatusResult okStatusResult okStatusResult
      = .dict [("connected", .bool false),
               ("error", .str "list index out of range")] := by rfl
